import Mathlib

/-!
Verification development for the marblecutter windowing/rendering core
(`marblecutter/__init__.py`).

The Python source is shallowly embedded over exact rationals (`ℚ`): the
floating-point arithmetic of the source is modelled as exact arithmetic,
numpy arrays are modelled either as nested lists of rationals (where the
pixel contents matter) or as shape-plus-mask records (where only shapes and
mask provenance matter), and Python exceptions are modelled with `Except`.
External collaborators (the warp capability, the haversine library, the
mosaic module, transformations, encoders) are abstracted as parameters or
modelled from their documented contracts.
-/

namespace Marblecutter

/-- A coordinate reference system: an EPSG-style code plus the
`is_geographic` flag that rasterio exposes on CRS objects. Equality of CRS
values in the source (`bounds_crs == WEB_MERCATOR_CRS`, `str(crs)` dict
keys) is equality of the code. -/
structure CRS where
  code : ℕ
  geographic : Bool
deriving DecidableEq, Repr

/-- `WEB_MERCATOR_CRS = CRS.from_epsg(3857)` (projected). -/
def WEB_MERCATOR_CRS : CRS := ⟨3857, false⟩

/-- `WGS84_CRS = CRS.from_epsg(4326)` (geographic). -/
def WGS84_CRS : CRS := ⟨4326, true⟩

/-- A bounding box `(left, bottom, right, top)` in CRS units. -/
structure Bnds where
  left : ℚ
  bottom : ℚ
  right : ℚ
  top : ℚ
deriving DecidableEq, Repr

/-- Abstract error kinds of the core, following the spec's taxonomy.
The Python source raises `KeyError` from `get_extent`'s dict lookup
(re-raised as `Exception("Unsupported CRS: ...")` in `read_window`) and
`ZeroDivisionError` from the divisions by width/height; both surfaces are
mapped to the corresponding abstract kind. -/
inductive Err where
  | unsupportedCRS (crs : CRS)
  | invalidShape
deriving DecidableEq, Repr

/-- The static extent table `EXTENTS`, keyed (as in the source) by the CRS
identity: web mercator and WGS84 world bounds. -/
def EXTENTS (crs : CRS) : Option Bnds :=
  if crs.code = 3857 then
    some ⟨-(20037508342789244 : ℚ)/1000000000, -(20037508342789244 : ℚ)/1000000000,
          (20037508342789244 : ℚ)/1000000000, (20037508342789244 : ℚ)/1000000000⟩
  else if crs.code = 4326 then
    some ⟨-180, -90, 180, 90⟩
  else
    none

/-- `get_extent(crs)`: `EXTENTS[str(crs)]`. A missing key raises
(`KeyError`), modelled as the `unsupportedCRS` error kind. -/
def get_extent (crs : CRS) : Except Err Bnds :=
  match EXTENTS crs with
  | some e => Except.ok e
  | none => Except.error (Err.unsupportedCRS crs)

/-- The rasterio affine transform `Affine(a, b, c, d, e, f)`; `c` is the
x-offset and `f` the y-offset, `a` the x-scale and `e` the (negative,
north-up) y-scale. Only the coefficients the source uses are kept. -/
structure Aff where
  a : ℚ
  c : ℚ
  e : ℚ
  f : ℚ
deriving DecidableEq, Repr

/-- `transform.from_bounds(west, south, east, north, width, height)`:
`Affine.translation(west, north) * Affine.scale((east-west)/width,
(south-north)/height)`. Division by a zero dimension raises
`ZeroDivisionError` in Python; callers in this file guard for it. -/
def from_bounds (b : Bnds) (width height : ℚ) : Aff :=
  ⟨(b.right - b.left) / width, b.left, (b.bottom - b.top) / height, b.top⟩

/-- A rasterio `Window(col_off, row_off, num_cols, num_rows)` of the
1.0-alpha era the source targets (it has `num_cols`/`num_rows` fields and
iterates as `((row_start, row_stop), (col_start, col_stop))`). -/
structure Win where
  col_off : ℚ
  row_off : ℚ
  num_cols : ℚ
  num_rows : ℚ
deriving DecidableEq, Repr

/-- `windows.bounds(window, transform)`: georeferenced
`(left, bottom, right, top)` of a window under a north-up transform. -/
def windows_bounds (w : Win) (t : Aff) : Bnds :=
  ⟨t.c + w.col_off * t.a,
   t.f + (w.row_off + w.num_rows) * t.e,
   t.c + (w.col_off + w.num_cols) * t.a,
   t.f + w.row_off * t.e⟩

/-- Normalisation of a Python slice index against a length `n`: negative
indices count from the end, then the index is clamped to `[0, n]`. -/
def pyIdx (n : ℕ) (i : ℤ) : ℤ :=
  if i < 0 then max 0 ((n : ℤ) + i) else min i (n : ℤ)

/-- Python slice semantics for `l[start:stop]` with unit step. -/
def pySlice (l : List α) (start stop : ℤ) : List α :=
  (l.drop (pyIdx l.length start).toNat).take
    (pyIdx l.length stop - pyIdx l.length start).toNat

/-- A numpy array of rank 3, as a nested list of rationals. A RAW array is
indexed (band, row, col); an RGB/RGBA image array is indexed
(row, col, channel). -/
abbrev Arr : Type := List (List (List ℚ))

/-- `data.shape` of a rank-3 numpy array: each component is the length
along the corresponding axis (rectangularity is a side condition stated
where needed). -/
def shape3 (data : Arr) : ℕ × ℕ × ℕ :=
  (data.length, (data.headD []).length, ((data.headD []).headD []).length)

/-- `data[s0a:s0b, s1a:s1b, :]` on a rank-3 array. -/
def slice2of3 (data : Arr) (s0a s0b s1a s1b : ℤ) : Arr :=
  (pySlice data s0a s0b).map (fun row => pySlice row s1a s1b)

/-- `data[:, s1a:s1b, s2a:s2b]` on a rank-3 array. -/
def sliceLast2of3 (data : Arr) (s1a s1b s2a s2b : ℤ) : Arr :=
  data.map (fun band => (pySlice band s1a s1b).map (fun row => pySlice row s2a s2b))

/-- ASCII upper-casing of one character (`str.upper` restricted to the
ASCII format names the pipeline uses). -/
def upperChar (c : Char) : Char :=
  if 'a' ≤ c ∧ c ≤ 'z' then Char.ofNat (c.toNat - 32) else c

/-- ASCII `data_format.upper()`. -/
def upperStr (s : String) : String :=
  ⟨s.data.map upperChar⟩

/-- `_isimage(data_format)`: `data_format.upper() in ["RGB", "RGBA"]`. -/
def isimage (data_format : String) : Bool :=
  upperStr data_format = "RGB" || upperStr data_format = "RGBA"

/-- `crop((data, (bounds, data_crs)), data_format, offsets)`, translated
line by line from the source.

Image branch (`_isimage`): the source unpacks
`width, height, _ = data.shape` — so for a channel-last array of shape
(rows, cols, channels), the variable `width` is bound to the row count and
`height` to the column count — and then slices
`data[top:height - bottom, left:width - right, :]`, returning
`(data, (None, None))`.

RAW branch: `_, height, width = data.shape`;
`t = transform.from_bounds(*bounds, width=width, height=height)`;
`data = data[:, top:height - bottom, left:width - right]`;
`cropped_window = windows.Window(left, top, *data.shape[1:])` — the
positional arguments of that rasterio `Window` are
`(col_off, row_off, num_cols, num_rows)`, and `data.shape[1:]` is
(rows, cols) — then `cropped_bounds = windows.bounds(cropped_window, t)`.
Returns `(data, (cropped_bounds, data_crs))`. -/
def crop (data : Arr) (bounds : Bnds) (data_crs : CRS) (data_format : String)
    (offsets : ℤ × ℤ × ℤ × ℤ) : Arr × (Option Bnds × Option CRS) :=
  let left := offsets.1
  let right := offsets.2.1
  let bottom := offsets.2.2.1
  let top := offsets.2.2.2
  if isimage data_format then
    let width := (shape3 data).1
    let height := (shape3 data).2.1
    let data := slice2of3 data top ((height : ℤ) - bottom) left ((width : ℤ) - right)
    (data, (none, none))
  else
    let height := (shape3 data).2.1
    let width := (shape3 data).2.2
    let t := from_bounds bounds (width : ℚ) (height : ℚ)
    let data := sliceLast2of3 data top ((height : ℤ) - bottom) left ((width : ℤ) - right)
    let cropped_window : Win :=
      ⟨(left : ℚ), (top : ℚ), ((shape3 data).2.1 : ℚ), ((shape3 data).2.2 : ℚ)⟩
    let cropped_bounds := windows_bounds cropped_window t
    (data, (some cropped_bounds, some data_crs))

/-- The exact per-axis resolution implied by a bounds/shape pair:
`t = transform.from_bounds(*bounds, width=width, height=height)` followed
by `(abs(t.a), abs(t.e))`. -/
def resolutionOf (bounds : Bnds) (height width : ℤ) : ℚ × ℚ :=
  let t := from_bounds bounds (width : ℚ) (height : ℚ)
  (|t.a|, |t.e|)

/-- `get_resolution((bounds, crs), (height, width))`. The affine built by
`transform.from_bounds` divides by `width` and by `height`; a zero
dimension raises (`ZeroDivisionError`), modelled as the `invalidShape`
error kind. -/
def get_resolution (bounds : Bnds) (height width : ℤ) : Except Err (ℚ × ℚ) :=
  if height = 0 ∨ width = 0 then Except.error Err.invalidShape
  else Except.ok (resolutionOf bounds height width)

/-- `get_resolution_in_meters((bounds, crs), (height, width))`,
parametrised by the external `haversine` great-circle distance function
(kilometres between two (lon, lat)-style points, as the source calls it).
Geographic branch: distances between the edge midpoints, times 1000,
divided by width resp. height (zero dimensions raise, modelled as
`invalidShape`). Projected branch: delegates to `get_resolution`. -/
def get_resolution_in_meters (hav : (ℚ × ℚ) → (ℚ × ℚ) → ℚ)
    (bounds : Bnds) (crs : CRS) (height width : ℤ) : Except Err (ℚ × ℚ) :=
  if crs.geographic then
    if height = 0 ∨ width = 0 then Except.error Err.invalidShape
    else
      let l := (bounds.left, (bounds.bottom + bounds.top) / 2)
      let r := (bounds.right, (bounds.bottom + bounds.top) / 2)
      let t := ((bounds.left + bounds.right) / 2, bounds.top)
      let b := ((bounds.left + bounds.right) / 2, bounds.bottom)
      Except.ok (hav l r * 1000 / (width : ℚ), hav t b * 1000 / (height : ℚ))
  else
    get_resolution bounds height width

/-- `get_zoom(resolution, op=round)`:
`int(op(math.log((2 * math.pi * 6378137) / (resolution * 256)) / math.log(2)))`.
The float arithmetic is idealised over the reals (`Real.logb 2 x` is
definitionally `log x / log 2`); the rounding callable `op` already lands
in `ℤ`, so the final `int(...)` cast is the identity. -/
noncomputable def get_zoom (resolution : ℝ) (op : ℝ → ℤ) : ℤ :=
  op (Real.logb 2 ((2 * Real.pi * 6378137) / (resolution * 256)))

/-- The slice of an open rasterio dataset handle that `read_window` reads:
band count and nodata value. (The warped VRT built over the source keeps
the band count and nodata of the source.) -/
structure Src where
  count : ℕ
  nodata : Option ℚ
deriving DecidableEq, Repr

/-- Provenance of the validity mask carried by a masked array in
`read_window`: `fromNodata` after `_mask(data, nodata)`, `allValid` after
`np.ma.masked_array(data, mask=False)`, `fromCompanion` after
`data.mask = ~mask` with a successfully read companion `.msk` sidecar. -/
inductive MaskProv where
  | fromNodata
  | allValid
  | fromCompanion
deriving DecidableEq, Repr

/-- The mask `read_window` derives from the nodata value:
`_mask(data, vrt.nodata)` when nodata is set, otherwise
`np.ma.masked_array(data, mask=False)`. -/
def nodataProv (src : Src) : MaskProv :=
  if src.nodata.isSome then MaskProv.fromNodata else MaskProv.allValid

/-- A masked array at the level of detail `read_window`'s contract is
stated at: its shape (bands, rows, cols) and the provenance of its
validity mask. Pixel values are abstracted (they are produced by the
external warp/resample kernel and the spline fit). -/
structure MA where
  bands : ℕ
  rows : ℕ
  cols : ℕ
  mask : MaskProv
deriving DecidableEq, Repr

/-- `np.arange(0, n)` as a list of rationals. -/
def pyArange (n : ℕ) : List ℚ :=
  (List.range n).map (fun (i : ℕ) => (i : ℚ))

/-- `np.linspace(a, b, num=n)` (endpoint included): `n` evenly spaced
samples from `a` to `b`. -/
def pyLinspace (a b : ℚ) (num : ℕ) : List ℚ :=
  if num ≤ 1 then List.replicate num a
  else (List.range num).map (fun (i : ℕ) => a + (i : ℚ) * (b - a) / ((num : ℚ) - 1))

/-- `read_window(src, (bounds, bounds_crs), (height, width))`, translated
from the source over the following abstraction of its external
collaborators:
* `dstWin` is `vrt.window(*bounds)` — the integer-valued
  `((row_start, row_stop), (col_start, col_stop))` window that the warped
  VRT (the external warp capability) reports for the target bounds;
* `srcZoom` is the web-mercator branch's
  `get_zoom(max(get_resolution_in_meters((src.bounds, src.crs),
  (src.height, src.width))), op=math.ceil)` — the Zoom Selector applied to
  the source's native meter resolution (a real-log/haversine computation
  on the source handle's metadata);
* `companionOk` tells whether the companion-mask block (open
  `"{src.name}.msk"`, build a warped VRT over it, read it) succeeds; the
  source wraps that whole block in `try: ... except Exception: pass`.

Array values are abstracted (see `MA`); every shape- and mask-relevant
operation of the source is mirrored, including the destination grid
sizing, the scale-factor branch, the buffered spline read and the
fractional-alignment sample coordinates. -/
def read_window (src : Src) (bounds : Bnds) (bounds_crs : CRS)
    (height width : ℕ) (dstWin : (ℤ × ℤ) × (ℤ × ℤ)) (srcZoom : ℕ)
    (companionOk : Bool) : Except Err (MA × (Bnds × CRS)) := do
  let extent ← get_extent bounds_crs
  -- destination grid sizing: (dst_width, dst_height, dst_transform)
  let dstGrid : ℚ × ℚ × Aff :=
    if bounds_crs = WEB_MERCATOR_CRS then
      let dstDim : ℚ := (2 ^ srcZoom) * 256
      let res : ℚ × ℚ :=
        ((extent.right - extent.left) / dstDim, (extent.top - extent.bottom) / dstDim)
      (dstDim, dstDim, ⟨res.1, extent.left, -res.2, extent.top⟩)
    else
      let res := resolutionOf bounds (height : ℤ) (width : ℤ)
      let extent_width := extent.right - extent.left
      let extent_height := extent.top - extent.bottom
      let dw := (1 / res.1) * extent_width
      let dh := (1 / res.2) * extent_height
      if width % 2 = 1 ∨ height % 2 = 1 then
        (dw * 2, dh * 2, ⟨res.1 / 2, extent.left, -(res.2 / 2), extent.top⟩)
      else
        (dw, dh, ⟨res.1, extent.left, -res.2, extent.top⟩)
  let vrt_transform : Aff := dstGrid.2.2
  let r := dstWin.1
  let c := dstWin.2
  let scale_factor : ℚ × ℚ := (((c.2 - c.1 : ℤ) : ℚ) / (width : ℚ),
                               ((r.2 - r.1 : ℤ) : ℚ) / (height : ℚ))
  let data : MA :=
    if src.count = 1 ∧ (scale_factor.1 < 1 ∨ scale_factor.2 < 1) then
      -- spline-correction path
      let buffer_pixels : ℤ := 2
      let pixel : ℚ × ℚ := (1 / scale_factor.1, 1 / scale_factor.2)
      let buf : ℚ × ℚ := ((buffer_pixels : ℚ) * pixel.1, (buffer_pixels : ℚ) * pixel.2)
      -- `Window.from_ranges((r[0]-2, r[1]+2), (c[0]-2, c[1]+2))`
      let window : (ℤ × ℤ) × (ℤ × ℤ) :=
        ((r.1 - buffer_pixels, r.2 + buffer_pixels),
         (c.1 - buffer_pixels, c.2 + buffer_pixels))
      let wNumRows : ℕ := (window.1.2 - window.1.1).toNat
      let wNumCols : ℕ := (window.2.2 - window.2.1).toNat
      -- sample coordinates for the interpolation
      let xy : List ℚ × List ℚ :=
        if ¬(scale_factor.1.den = 1) ∨ ¬(scale_factor.2.den = 1) then
          -- `vrt.transform * Affine.scale(*scale_factor)`
          let scaled : Aff := ⟨vrt_transform.a * scale_factor.1, vrt_transform.c,
                               vrt_transform.e * scale_factor.2, vrt_transform.f⟩
          -- `windows.from_bounds(*bounds, transform=scaled, boundless=True)`
          let tr : ℚ × ℚ := ((bounds.top - scaled.f) / scaled.e,
                             (bounds.bottom - scaled.f) / scaled.e)
          let tc : ℚ × ℚ := ((bounds.left - scaled.c) / scaled.a,
                             (bounds.right - scaled.c) / scaled.a)
          let tr' : ℚ × ℚ := (tr.1 - (buffer_pixels : ℚ) * scale_factor.2,
                              tr.2 + (buffer_pixels : ℚ) * scale_factor.2)
          let tc' : ℚ × ℚ := (tc.1 - (buffer_pixels : ℚ) * scale_factor.1,
                              tc.2 + (buffer_pixels : ℚ) * scale_factor.1)
          -- `windows.bounds(window, vrt.transform)`
          let data_bounds := windows_bounds
            ⟨(window.2.1 : ℚ), (window.1.1 : ℚ), ((window.2.2 - window.2.1 : ℤ) : ℚ),
             ((window.1.2 - window.1.1 : ℤ) : ℚ)⟩ vrt_transform
          -- `windows.from_bounds(*data_bounds, transform=scaled, boundless=True)`
          let dr : ℚ × ℚ := ((data_bounds.top - scaled.f) / scaled.e,
                             (data_bounds.bottom - scaled.f) / scaled.e)
          let dc : ℚ × ℚ := ((data_bounds.left - scaled.c) / scaled.a,
                             (data_bounds.right - scaled.c) / scaled.a)
          let minx := dr.1 - tr'.1
          let miny := dc.1 - tc'.1
          let maxx := (width : ℚ) + (dr.2 - tr'.2)
          let maxy := (height : ℚ) + (dc.2 - tc'.2)
          (pyLinspace (minx - buf.1) (maxx - buf.1) wNumCols,
           pyLinspace (miny - buf.2) (maxy - buf.2) wNumRows)
        else
          (pyLinspace (-buf.1) ((wNumCols : ℚ) * pixel.1 - buf.1) wNumCols,
           pyLinspace (-buf.2) ((wNumRows : ℚ) * pixel.2 - buf.2) wNumRows)
      -- `data = vrt.read(1, window=window)`: a 2-D array of the window's shape
      let readShape : ℕ × ℕ := (wNumRows, wNumCols)
      let readMask : MaskProv := nodataProv src
      -- `interp = RectBivariateSpline(y, x, data)` over (xy.2, xy.1, readShape);
      -- `data = interp(np.arange(0, height), np.arange(0, width))[np.newaxis]`
      let ys := pyArange height
      let xs := pyArange width
      let interpolated : ℕ × ℕ := (ys.length, xs.length)
      -- re-apply the nodata-derived mask to the interpolated result
      let _ := (readShape, readMask, xy)
      ⟨1, interpolated.1, interpolated.2, nodataProv src⟩
    else
      -- direct path: `vrt.read(out_shape=(vrt.count, height, width), window=dst_window)`
      ⟨src.count, height, width, nodataProv src⟩
  -- `data = data.astype(np.float32)`: shape and mask unchanged
  -- companion mask block: on success, `data.mask = ~mask`; any failure is
  -- swallowed (`except Exception: pass`) and the mask is left as-is
  let data : MA := if companionOk then { data with mask := MaskProv.fromCompanion } else data
  return (data, (bounds, bounds_crs))

/-- An optional post-read transformation: a callable returning
`(data, data_format)`, which may or may not expose a `buffer` attribute
(`hasattr(transformation, 'buffer')` is modelled by the option). -/
structure Xform where
  buffer : Option ℤ
  fn : Arr × (Bnds × CRS) → Arr × String

/-- `effective_buffer` in `render`: starts as the caller's own `buffer`
and becomes `buffer + transformation.buffer` when a transformation is
supplied and has a `buffer` attribute. -/
def effectiveBuffer (buffer : ℤ) (transformation : Option Xform) : ℤ :=
  match transformation with
  | some t =>
    match t.buffer with
    | some tb => buffer + tb
    | none => buffer
  | none => buffer

/-- `offset` in `render`: `transformation.buffer` when a transformation is
supplied and has a `buffer` attribute, else `0`. -/
def offsetOf (transformation : Option Xform) : ℤ :=
  match transformation with
  | some t =>
    match t.buffer with
    | some tb => tb
    | none => 0
  | none => 0

/-- `shape = [dim + (2 * effective_buffer) for dim in shape]`. -/
def applyBufferShape (shape : List ℤ) (eb : ℤ) : List ℤ :=
  shape.map (fun dim => dim + 2 * eb)

/-- `bounds = [p - (effective_buffer * resolution[i % 2]) if i < 2 else
p + (effective_buffer * resolution[i % 2]) for i, p in enumerate(bounds)]`
over the list `[left, bottom, right, top]`. -/
def applyBufferBounds (bounds : List ℚ) (eb : ℤ) (res : ℚ × ℚ) : List ℚ :=
  bounds.enum.map (fun ip =>
    let resI := if ip.1 % 2 = 0 then res.1 else res.2
    if ip.1 < 2 then ip.2 - (eb : ℚ) * resI else ip.2 + (eb : ℚ) * resI)

/-- The state `render` has built just before calling the mosaic
collaborator: the (possibly clamped) shape, bounds, and the four crop
offsets. -/
structure Plan where
  shape0 : ℤ
  shape1 : ℤ
  bnds : Bnds
  left : ℤ
  right : ℤ
  bottom : ℤ
  top : ℤ
deriving DecidableEq, Repr

/-- The buffer-application and extent-clamping block of `render`
(lines between the resolution computation and the mosaic call): expand
shape and bounds by `eb`, set all four offsets to `offset`, then for each
of the four edges independently compare the buffered bound with the
extent and, where it lies outside, shrink the corresponding shape
dimension by `eb`, restore the original bound, and zero that side's
offset. -/
def renderPlan (bounds : Bnds) (shape : ℤ × ℤ) (eb offset : ℤ)
    (extent : Bnds) (res : ℚ × ℚ) : Plan :=
  let shapeL := applyBufferShape [shape.1, shape.2] eb
  let bndsL := applyBufferBounds [bounds.left, bounds.bottom, bounds.right, bounds.top] eb res
  let shape0 := shapeL.getD 0 0
  let shape1 := shapeL.getD 1 0
  let b0 := bndsL.getD 0 0
  let b1 := bndsL.getD 1 0
  let b2 := bndsL.getD 2 0
  let b3 := bndsL.getD 3 0
  let (shape1, b0, left) :=
    if b0 < extent.left then (shape1 - eb, bounds.left, 0) else (shape1, b0, offset)
  let (shape1, b2, right) :=
    if b2 > extent.right then (shape1 - eb, bounds.right, 0) else (shape1, b2, offset)
  let (shape0, b1, bottom) :=
    if b1 < extent.bottom then (shape0 - eb, bounds.bottom, 0) else (shape0, b1, offset)
  let (shape0, b3, top) :=
    if b3 > extent.top then (shape0 - eb, bounds.top, 0) else (shape0, b3, offset)
  ⟨shape0, shape1, ⟨b0, b1, b2, b3⟩, left, right, bottom, top⟩

/-- An all-zero array of the given shape, standing in for pixel data whose
values come from external collaborators. -/
def mkArr (bands rows cols : ℕ) : Arr :=
  List.replicate bands (List.replicate rows (List.replicate cols 0))

/-- Modelled from the spec: `mosaic.composite(sources, (bounds,
bounds_crs), shape, target_crs)` — the mosaic module is an external
collaborator of this file (`from . import mosaic`, not part of the core
source). Per §6 of the spec it returns `(MaskedArray, (bounds, CRS))` in
the target CRS, the masked array having shape (bands, height, width) for
the requested shape. Pixel values are abstract. -/
def composite (bands : ℕ) (bounds : Bnds) (shape : ℤ × ℤ)
    (target_crs : CRS) : Arr × (Bnds × CRS) :=
  (mkArr bands shape.1.toNat shape.2.toNat, (bounds, target_crs))

/-- `render((bounds, bounds_crs), shape, target_crs, format,
transformation=None, buffer=0)`, translated from the source; the final
`format(...)` encoder call is external, so the model returns the
`((data, (data_bounds, data_crs)), data_format)` argument that `render`
hands to the encoder. `hav` parametrises the external haversine function
(used only when `bounds_crs` is geographic) and `bands` the band count of
the mosaic collaborator's composite. `mosaic.get_sources` only feeds the
opaque composite and is absorbed into the modelled `composite`. -/
def render (hav : (ℚ × ℚ) → (ℚ × ℚ) → ℚ) (bands : ℕ)
    (bounds : Bnds) (bounds_crs : CRS) (shape : ℤ × ℤ) (target_crs : CRS)
    (transformation : Option Xform) (buffer : ℤ) :
    Except Err (Arr × (Option Bnds × Option CRS) × String) := do
  let resolution ← get_resolution bounds shape.1 shape.2
  let _resolution_m ← get_resolution_in_meters hav bounds bounds_crs shape.1 shape.2
  let eb := effectiveBuffer buffer transformation
  let offset := offsetOf transformation
  let extent ← get_extent bounds_crs
  let plan := renderPlan bounds shape eb offset extent resolution
  -- `sources = mosaic.get_sources((bounds, bounds_crs), resolution_m)` feeds
  -- the composite below and is otherwise opaque
  let (data, (data_bounds, data_crs)) :=
    composite bands plan.bnds (plan.shape0, plan.shape1) target_crs
  let (data, data_format) :=
    match transformation with
    | some t => t.fn (data, (data_bounds, data_crs))
    | none => (data, "raw")
  let (data, dbdc) :=
    if eb > buffer then
      crop data data_bounds data_crs data_format (plan.left, plan.right, plan.bottom, plan.top)
    else
      (data, (some data_bounds, some data_crs))
  return (data, dbdc, data_format)

/-- The image-branch slicing of the Crop Utility exactly as the spec words
it: for a channel-last array of shape (height, width, channels), slice
rows `[top : height - bottom]` and cols `[left : width - right]`, leaving
the channel axis unchanged. Stated for comparison with the source's
`crop`. -/
def cropImageSpec (data : Arr) (offsets : ℤ × ℤ × ℤ × ℤ) : Arr :=
  let left := offsets.1
  let right := offsets.2.1
  let bottom := offsets.2.2.1
  let top := offsets.2.2.2
  let height := (shape3 data).1
  let width := (shape3 data).2.1
  slice2of3 data top ((height : ℤ) - bottom) left ((width : ℤ) - right)

/-- Rectangular shape of a rank-3 nested-list array: `b` bands each of
`r` rows each of `c` entries. -/
def HasShape3 (a : Arr) (b r c : ℕ) : Prop :=
  a.length = b ∧ ∀ p ∈ a, p.length = r ∧ ∀ q ∈ p, q.length = c

/-! ## Helper lemmas -/

/-- Closed form of `renderPlan`: each edge is clamped independently of the
others, the two shape dimensions collect the shrinkage of their two edges,
and each crop offset is `0` exactly on clamped edges. -/
lemma renderPlan_eq (bounds : Bnds) (s0 s1 eb offset : ℤ) (extent : Bnds) (res : ℚ × ℚ) :
    renderPlan bounds (s0, s1) eb offset extent res =
      { shape0 := s0 + 2 * eb - (if bounds.bottom - (eb : ℚ) * res.2 < extent.bottom then eb else 0)
                  - (if bounds.top + (eb : ℚ) * res.2 > extent.top then eb else 0),
        shape1 := s1 + 2 * eb - (if bounds.left - (eb : ℚ) * res.1 < extent.left then eb else 0)
                  - (if bounds.right + (eb : ℚ) * res.1 > extent.right then eb else 0),
        bnds := ⟨if bounds.left - (eb : ℚ) * res.1 < extent.left then bounds.left
                   else bounds.left - (eb : ℚ) * res.1,
                 if bounds.bottom - (eb : ℚ) * res.2 < extent.bottom then bounds.bottom
                   else bounds.bottom - (eb : ℚ) * res.2,
                 if bounds.right + (eb : ℚ) * res.1 > extent.right then bounds.right
                   else bounds.right + (eb : ℚ) * res.1,
                 if bounds.top + (eb : ℚ) * res.2 > extent.top then bounds.top
                   else bounds.top + (eb : ℚ) * res.2⟩,
        left := if bounds.left - (eb : ℚ) * res.1 < extent.left then 0 else offset,
        right := if bounds.right + (eb : ℚ) * res.1 > extent.right then 0 else offset,
        bottom := if bounds.bottom - (eb : ℚ) * res.2 < extent.bottom then 0 else offset,
        top := if bounds.top + (eb : ℚ) * res.2 > extent.top then 0 else offset } := by
  simp only [renderPlan, applyBufferShape, applyBufferBounds, List.enum, List.map]
  norm_num
  split_ifs <;> simp_all

/-- Lookup of a CRS outside the registered table fails with the
unsupported-CRS error kind. -/
lemma get_extent_unregistered (crs : CRS) (h : ¬(crs.code = 3857 ∨ crs.code = 4326)) :
    get_extent crs = Except.error (Err.unsupportedCRS crs) := by
  push_neg at h
  simp [get_extent, EXTENTS, h.1, h.2]

/-- `get_resolution` succeeds on nonzero dimensions. -/
lemma get_resolution_ok (bounds : Bnds) (h w : ℤ) (hh : h ≠ 0) (hw : w ≠ 0) :
    get_resolution bounds h w = Except.ok (resolutionOf bounds h w) := by
  simp [get_resolution, hh, hw]

/-- `get_resolution_in_meters` succeeds on nonzero dimensions, for any CRS. -/
lemma grm_ok (hav : (ℚ × ℚ) → (ℚ × ℚ) → ℚ) (bounds : Bnds) (crs : CRS) (h w : ℤ)
    (hh : h ≠ 0) (hw : w ≠ 0) :
    ∃ v, get_resolution_in_meters hav bounds crs h w = Except.ok v := by
  cases hg : crs.geographic <;>
    simp [get_resolution_in_meters, hg, get_resolution, hh, hw]

/-- Lookup of a registered CRS succeeds. -/
lemma get_extent_registered (crs : CRS) (h : crs.code = 3857 ∨ crs.code = 4326) :
    ∃ e, get_extent crs = Except.ok e := by
  rcases h with h | h <;> simp [get_extent, EXTENTS, h]

/-- `np.arange(0, n)` has `n` samples. -/
lemma pyArange_length (n : ℕ) : (pyArange n).length = n := by
  rw [pyArange, List.length_map, List.length_range]

/-- `mkArr` is rectangular. -/
lemma mkArr_hasShape (b r c : ℕ) : HasShape3 (mkArr b r c) b r c := by
  refine ⟨List.length_replicate _ _, fun p hp => ?_⟩
  rw [List.eq_of_mem_replicate hp]
  exact ⟨List.length_replicate _ _, fun q hq => by
    rw [List.eq_of_mem_replicate hq]; exact List.length_replicate _ _⟩

/-- On a nonempty rectangular array, `data.shape` is the rectangular
shape. -/
lemma shape3_of_hasShape (a : Arr) (b r c : ℕ) (h : HasShape3 a b r c)
    (hb : 0 < b) (hr : 0 < r) : shape3 a = (b, r, c) := by
  obtain ⟨hlen, hrow⟩ := h
  have hne : a ≠ [] := by
    intro he
    rw [he] at hlen
    simp at hlen
    omega
  have hhead : a.headD [] ∈ a := by
    cases a with
    | nil => exact absurd rfl hne
    | cons x xs => simp
  obtain ⟨hrlen, hcol⟩ := hrow _ hhead
  have hrne : a.headD [] ≠ [] := by
    intro he
    rw [he] at hrlen
    simp at hrlen
    omega
  have hhead2 : (a.headD []).headD [] ∈ a.headD [] := by
    cases hx : a.headD [] with
    | nil => exact absurd hx hrne
    | cons y ys => simp
  have hq := hcol _ hhead2
  simp only [List.headD_eq_head?] at hrlen hq
  simp [shape3, hlen, hrlen, hq]

/-- Length of an in-range Python slice. -/
lemma pySlice_length (l : List α) (start stop : ℤ) (h0 : 0 ≤ start)
    (h1 : start ≤ stop) (h2 : stop ≤ l.length) :
    (pySlice l start stop).length = (stop - start).toNat := by
  unfold pySlice pyIdx
  rw [if_neg (by omega), if_neg (by omega)]
  simp only [List.length_take, List.length_drop]
  omega

/-- A Python slice keeps only elements of the original list. -/
lemma mem_of_mem_pySlice {x : α} {l : List α} {a b : ℤ} (h : x ∈ pySlice l a b) : x ∈ l :=
  List.mem_of_mem_drop (List.mem_of_mem_take h)

/-- Shape of the RAW branch of `crop`: the band count is kept and each
spatial axis loses its two offsets. -/
lemma crop_raw_shape (a : Arr) (bounds : Bnds) (crs : CRS) (fmt : String)
    (B R C : ℕ) (hB : 0 < B) (hR : 0 < R)
    (h : HasShape3 a B R C) (offL offR offB offT : ℤ)
    (hle : 0 ≤ offL) (hri : 0 ≤ offR) (hbo : 0 ≤ offB) (hto : 0 ≤ offT)
    (hrow : offT + offB ≤ (R : ℤ)) (hcol : offL + offR ≤ (C : ℤ))
    (hfmt : isimage fmt = false) :
    HasShape3 (crop a bounds crs fmt (offL, offR, offB, offT)).1
      B ((R : ℤ) - offT - offB).toNat ((C : ℤ) - offL - offR).toNat := by
  have hs := shape3_of_hasShape a B R C h hB hR
  simp only [crop, hfmt, Bool.false_eq_true, if_false, hs, sliceLast2of3]
  refine ⟨by simpa using h.1, fun p hp => ?_⟩
  simp only [List.mem_map] at hp
  obtain ⟨band, hband, rfl⟩ := hp
  obtain ⟨hblen, hbrow⟩ := h.2 band hband
  constructor
  · rw [List.length_map,
      pySlice_length band offT ((R : ℤ) - offB) hto (by omega) (by rw [hblen]; omega)]
    omega
  · intro q hq
    simp only [List.mem_map] at hq
    obtain ⟨row, hrowmem, rfl⟩ := hq
    have hrl := hbrow row (mem_of_mem_pySlice hrowmem)
    rw [pySlice_length row offL ((C : ℤ) - offR) hle (by omega) (by rw [hrl]; omega)]
    omega

/-- `Except` bind on a success, for reducing the monadic chains of
`render` and `read_window`. -/
lemma ok_bind {α β : Type} (x : α) (f : α → Except Err β) :
    (Except.ok x : Except Err α) >>= f = f x := rfl

/-! ## Claim theorems -/

/-- C1: for every request with positive target shape over a registered
CRS and well-ordered bounds, `read_window` returns a masked array of
shape exactly `(bands, height, width)` together with the unchanged input
`(bounds, CRS)` pair — whichever of the spline-correction path (single
band, some scale factor < 1) or the direct resampled-read path is taken,
and whatever the companion-mask outcome. -/
theorem C1_read_window_shape (src : Src) (bounds : Bnds) (crs : CRS) (h w : ℕ)
    (dstWin : (ℤ × ℤ) × (ℤ × ℤ)) (srcZoom : ℕ) (companionOk : Bool)
    (_hh : 0 < h) (_hw : 0 < w)
    (_hb1 : bounds.left < bounds.right) (_hb2 : bounds.bottom < bounds.top)
    (hreg : crs.code = 3857 ∨ crs.code = 4326) :
    ∃ m, read_window src bounds crs h w dstWin srcZoom companionOk =
      Except.ok (⟨src.count, h, w, m⟩, (bounds, crs)) := by
  obtain ⟨e, he⟩ := get_extent_registered crs hreg
  refine ⟨if companionOk then MaskProv.fromCompanion else nodataProv src, ?_⟩
  simp only [read_window, he, pyArange_length]
  split_ifs with hc hk hk <;> simp_all

/-- Witness for C1: a single-band source whose reported window is finer
than the request (scale factor 1/2), taking the spline path. -/
theorem C1_read_window_shape_witness :
    ∃ m, read_window ⟨1, some 0⟩ ⟨0, 0, 1, 1⟩ WGS84_CRS 4 4 ((0, 2), (0, 2)) 0 true =
      Except.ok (⟨1, 4, 4, m⟩, (⟨0, 0, 1, 1⟩, WGS84_CRS)) :=
  C1_read_window_shape ⟨1, some 0⟩ ⟨0, 0, 1, 1⟩ WGS84_CRS 4 4 ((0, 2), (0, 2)) 0 true
    (by norm_num) (by norm_num) (by norm_num) (by norm_num) (Or.inr rfl)

/-- C6: if the companion-mask block (`"{src.name}.msk"`) fails for any
reason, `read_window` recovers locally and silently: it returns normally
with the nodata-derived mask retained, and no error from the mask path
is surfaced — the primary read is never aborted by a mask failure. -/
theorem C6_companion_mask_failure_silent (src : Src) (bounds : Bnds) (crs : CRS)
    (h w : ℕ) (dstWin : (ℤ × ℤ) × (ℤ × ℤ)) (srcZoom : ℕ)
    (_hh : 0 < h) (_hw : 0 < w)
    (_hb1 : bounds.left < bounds.right) (_hb2 : bounds.bottom < bounds.top)
    (hreg : crs.code = 3857 ∨ crs.code = 4326) :
    read_window src bounds crs h w dstWin srcZoom false =
      Except.ok (⟨src.count, h, w, nodataProv src⟩, (bounds, crs)) := by
  obtain ⟨e, he⟩ := get_extent_registered crs hreg
  simp only [read_window, he, pyArange_length]
  split_ifs with hk hk <;> simp_all

/-- Witness for C6: the companion mask fails on a nodata-carrying source;
the nodata-derived mask survives and the read returns normally. -/
theorem C6_companion_mask_failure_silent_witness :
    read_window ⟨1, some 0⟩ ⟨0, 0, 1, 1⟩ WGS84_CRS 4 4 ((0, 2), (0, 2)) 0 false =
      Except.ok (⟨1, 4, 4, MaskProv.fromNodata⟩, (⟨0, 0, 1, 1⟩, WGS84_CRS)) :=
  C6_companion_mask_failure_silent ⟨1, some 0⟩ ⟨0, 0, 1, 1⟩ WGS84_CRS 4 4 ((0, 2), (0, 2)) 0
    (by norm_num) (by norm_num) (by norm_num) (by norm_num) (Or.inr rfl)



/-- C7: `get_extent` succeeds (pure lookup) for every CRS in the
registered extent table (EPSG:3857 and EPSG:4326) and fails with the
unsupported-CRS error for any unregistered CRS; the same failure
propagates out of `read_window` and out of `render`. -/
theorem C7_get_extent_totality :
    (∀ crs : CRS, (crs.code = 3857 ∨ crs.code = 4326) → ∃ e, get_extent crs = Except.ok e) ∧
    (∀ crs : CRS, ¬(crs.code = 3857 ∨ crs.code = 4326) →
      get_extent crs = Except.error (Err.unsupportedCRS crs)) ∧
    (∀ src bounds crs h w dstWin srcZoom companionOk, ¬(crs.code = 3857 ∨ crs.code = 4326) →
      read_window src bounds crs h w dstWin srcZoom companionOk =
        Except.error (Err.unsupportedCRS crs)) ∧
    (∀ hav bands bounds crs s target tr buffer, ¬(crs.code = 3857 ∨ crs.code = 4326) →
      s.1 ≠ 0 → s.2 ≠ 0 →
      render hav bands bounds crs s target tr buffer =
        Except.error (Err.unsupportedCRS crs)) := by
  refine ⟨?_, get_extent_unregistered, ?_, ?_⟩
  · rintro crs (h | h) <;> simp [get_extent, EXTENTS, h]
  · intro src bounds crs h w dstWin srcZoom companionOk hcrs
    simp only [read_window, get_extent_unregistered crs hcrs]
    rfl
  · intro hav bands bounds crs s target tr buffer hcrs h1 h2
    obtain ⟨v, hv⟩ := grm_ok hav bounds crs s.1 s.2 h1 h2
    simp only [render, get_resolution_ok bounds s.1 s.2 h1 h2, hv,
      get_extent_unregistered crs hcrs]
    rfl

/-- Witness for C7: the registered WGS84 CRS succeeds; an EPSG:9999 CRS
fails in `get_extent`, `read_window` and `render`. -/
theorem C7_get_extent_totality_witness :
    (∃ e, get_extent WGS84_CRS = Except.ok e) ∧
    get_extent ⟨9999, false⟩ = Except.error (Err.unsupportedCRS ⟨9999, false⟩) ∧
    read_window ⟨1, none⟩ ⟨0, 0, 1, 1⟩ ⟨9999, false⟩ 8 8 ((0, 4), (0, 4)) 0 false =
      Except.error (Err.unsupportedCRS ⟨9999, false⟩) ∧
    render (fun _ _ => 0) 1 ⟨0, 0, 1, 1⟩ ⟨9999, false⟩ (8, 8) WGS84_CRS none 0 =
      Except.error (Err.unsupportedCRS ⟨9999, false⟩) :=
  ⟨C7_get_extent_totality.1 WGS84_CRS (Or.inr rfl),
   C7_get_extent_totality.2.1 ⟨9999, false⟩ (by decide),
   C7_get_extent_totality.2.2.1 ⟨1, none⟩ ⟨0, 0, 1, 1⟩ ⟨9999, false⟩ 8 8 ((0, 4), (0, 4)) 0
     false (by decide),
   C7_get_extent_totality.2.2.2 (fun _ _ => 0) 1 ⟨0, 0, 1, 1⟩ ⟨9999, false⟩ (8, 8) WGS84_CRS
     none 0 (by decide) (by decide) (by decide)⟩

/-- C8: `get_resolution_in_meters` fails with the invalid-shape error
whenever the requested width or height is zero, and on a projected
(non-geographic) CRS it returns exactly the same value as
`get_resolution`. -/
theorem C8_resolution_in_meters (hav : (ℚ × ℚ) → (ℚ × ℚ) → ℚ) (bounds : Bnds) (crs : CRS)
    (h w : ℤ) :
    ((h = 0 ∨ w = 0) →
      get_resolution_in_meters hav bounds crs h w = Except.error Err.invalidShape) ∧
    (crs.geographic = false →
      get_resolution_in_meters hav bounds crs h w = get_resolution bounds h w) := by
  constructor
  · intro h0
    cases hg : crs.geographic <;>
      simp [get_resolution_in_meters, hg, get_resolution, h0]
  · intro hg
    simp [get_resolution_in_meters, hg]

/-- Witness for C8: a zero width fails on a geographic CRS; on the
projected web-mercator CRS the delegation to `get_resolution` holds. -/
theorem C8_resolution_in_meters_witness :
    get_resolution_in_meters (fun _ _ => 1) ⟨0, 0, 1, 1⟩ WGS84_CRS 5 0 =
      Except.error Err.invalidShape ∧
    get_resolution_in_meters (fun _ _ => 1) ⟨0, 0, 3, 2⟩ WEB_MERCATOR_CRS 2 3 =
      get_resolution ⟨0, 0, 3, 2⟩ 2 3 :=
  ⟨(C8_resolution_in_meters (fun _ _ => 1) ⟨0, 0, 1, 1⟩ WGS84_CRS 5 0).1 (Or.inr rfl),
   (C8_resolution_in_meters (fun _ _ => 1) ⟨0, 0, 3, 2⟩ WEB_MERCATOR_CRS 2 3).2 rfl⟩



/-- C2: In `render`, extent clamping acts per edge independently: for each
of the four edges, iff the buffered bound exceeds the registered global
extent on that edge, that bound is reset to its original unbuffered value,
the corresponding shape dimension is shrunk by `effective_buffer`, and
that side's crop-offset is set to 0; a request exceeding the extent on
exactly one side (here: the left) is shrunk by `effective_buffer` only on
that side and the opposite side is unaffected. -/
theorem C2_extent_clamping (bounds : Bnds) (s0 s1 eb offset : ℤ) (extent : Bnds)
    (res : ℚ × ℚ) :
    ((renderPlan bounds (s0, s1) eb offset extent res).bnds.left =
        (if bounds.left - (eb : ℚ) * res.1 < extent.left then bounds.left
         else bounds.left - (eb : ℚ) * res.1) ∧
      (renderPlan bounds (s0, s1) eb offset extent res).left =
        (if bounds.left - (eb : ℚ) * res.1 < extent.left then 0 else offset) ∧
      (renderPlan bounds (s0, s1) eb offset extent res).bnds.right =
        (if bounds.right + (eb : ℚ) * res.1 > extent.right then bounds.right
         else bounds.right + (eb : ℚ) * res.1) ∧
      (renderPlan bounds (s0, s1) eb offset extent res).right =
        (if bounds.right + (eb : ℚ) * res.1 > extent.right then 0 else offset) ∧
      (renderPlan bounds (s0, s1) eb offset extent res).shape1 =
        s1 + 2 * eb - (if bounds.left - (eb : ℚ) * res.1 < extent.left then eb else 0)
          - (if bounds.right + (eb : ℚ) * res.1 > extent.right then eb else 0) ∧
      (renderPlan bounds (s0, s1) eb offset extent res).bnds.bottom =
        (if bounds.bottom - (eb : ℚ) * res.2 < extent.bottom then bounds.bottom
         else bounds.bottom - (eb : ℚ) * res.2) ∧
      (renderPlan bounds (s0, s1) eb offset extent res).bottom =
        (if bounds.bottom - (eb : ℚ) * res.2 < extent.bottom then 0 else offset) ∧
      (renderPlan bounds (s0, s1) eb offset extent res).bnds.top =
        (if bounds.top + (eb : ℚ) * res.2 > extent.top then bounds.top
         else bounds.top + (eb : ℚ) * res.2) ∧
      (renderPlan bounds (s0, s1) eb offset extent res).top =
        (if bounds.top + (eb : ℚ) * res.2 > extent.top then 0 else offset) ∧
      (renderPlan bounds (s0, s1) eb offset extent res).shape0 =
        s0 + 2 * eb - (if bounds.bottom - (eb : ℚ) * res.2 < extent.bottom then eb else 0)
          - (if bounds.top + (eb : ℚ) * res.2 > extent.top then eb else 0)) ∧
    (bounds.left - (eb : ℚ) * res.1 < extent.left →
      ¬(bounds.right + (eb : ℚ) * res.1 > extent.right) →
      (renderPlan bounds (s0, s1) eb offset extent res).shape1 = s1 + eb ∧
      (renderPlan bounds (s0, s1) eb offset extent res).bnds.left = bounds.left ∧
      (renderPlan bounds (s0, s1) eb offset extent res).left = 0 ∧
      (renderPlan bounds (s0, s1) eb offset extent res).bnds.right =
        bounds.right + (eb : ℚ) * res.1 ∧
      (renderPlan bounds (s0, s1) eb offset extent res).right = offset) := by
  rw [renderPlan_eq]
  constructor
  · split_ifs <;> simp_all
  · intro h1 h2
    simp [h1, h2]
    ring

/-- Witness for C2: a WGS84-like request whose buffered bounds cross the
global extent on the left edge only. -/
theorem C2_extent_clamping_witness :
    (renderPlan ⟨-179, 0, 0, 10⟩ (10, 10) 2 5 ⟨-180, -90, 180, 90⟩ (1, 1)).shape1 = 12 ∧
    (renderPlan ⟨-179, 0, 0, 10⟩ (10, 10) 2 5 ⟨-180, -90, 180, 90⟩ (1, 1)).bnds.left = -179 ∧
    (renderPlan ⟨-179, 0, 0, 10⟩ (10, 10) 2 5 ⟨-180, -90, 180, 90⟩ (1, 1)).left = 0 ∧
    (renderPlan ⟨-179, 0, 0, 10⟩ (10, 10) 2 5 ⟨-180, -90, 180, 90⟩ (1, 1)).bnds.right = 2 ∧
    (renderPlan ⟨-179, 0, 0, 10⟩ (10, 10) 2 5 ⟨-180, -90, 180, 90⟩ (1, 1)).right = 5 := by
  have h := (C2_extent_clamping ⟨-179, 0, 0, 10⟩ 10 10 2 5 ⟨-180, -90, 180, 90⟩ (1, 1)).2
    (by norm_num) (by norm_num)
  refine ⟨by rw [h.1]; norm_num, h.2.1, h.2.2.1, by rw [h.2.2.2.1]; norm_num, h.2.2.2.2⟩

/-- C3: In `render`, with `effective_buffer` = own buffer plus the
transformation's declared buffer (0 if none), both shape dimensions grow
by exactly `2 * effective_buffer` and each bound moves outward by
`effective_buffer` times the resolution of its own axis, before any
extent clamping. -/
theorem C3_buffer_application (bounds : Bnds) (s0 s1 buffer : ℤ) (tr : Option Xform) :
    applyBufferShape [s0, s1] (effectiveBuffer buffer tr) =
      [s0 + 2 * effectiveBuffer buffer tr, s1 + 2 * effectiveBuffer buffer tr] ∧
    applyBufferBounds [bounds.left, bounds.bottom, bounds.right, bounds.top]
        (effectiveBuffer buffer tr)
        (resolutionOf bounds s0 s1) =
      [bounds.left - (effectiveBuffer buffer tr : ℚ) * (resolutionOf bounds s0 s1).1,
       bounds.bottom - (effectiveBuffer buffer tr : ℚ) * (resolutionOf bounds s0 s1).2,
       bounds.right + (effectiveBuffer buffer tr : ℚ) * (resolutionOf bounds s0 s1).1,
       bounds.top + (effectiveBuffer buffer tr : ℚ) * (resolutionOf bounds s0 s1).2] ∧
    effectiveBuffer buffer tr = buffer + ((tr.bind Xform.buffer).getD 0) := by
  refine ⟨by simp [applyBufferShape], ?_, ?_⟩
  · simp [applyBufferBounds, List.enum]
  · cases tr with
    | none => simp [effectiveBuffer]
    | some t => cases h : t.buffer <;> simp [effectiveBuffer, h]

/-- C9: `get_zoom(resolution, rounding)` equals the rounding function
applied to `log2(2π * 6378137 / (resolution * 256))` (cast to an integer);
for a fixed monotone rounding mode it is non-increasing as the resolution
grows; and zoom 0 corresponds to the reference resolution
`2π * 6378137 / 256 ≈ 156543` meters per pixel. -/
theorem C9_get_zoom_formula_monotone (op : ℝ → ℤ) (hop : Monotone op) (hz : op 0 = 0)
    (r1 r2 : ℝ) (h1 : 0 < r1) (h12 : r1 ≤ r2) :
    get_zoom r1 op = op (Real.logb 2 ((2 * Real.pi * 6378137) / (r1 * 256))) ∧
    get_zoom r2 op ≤ get_zoom r1 op ∧
    get_zoom ((2 * Real.pi * 6378137) / 256) op = 0 ∧
    (156543 : ℝ) < (2 * Real.pi * 6378137) / 256 ∧
    ((2 * Real.pi * 6378137) / 256 : ℝ) < 156544 := by
  have hpi : (0 : ℝ) < Real.pi := Real.pi_pos
  refine ⟨rfl, ?_, ?_, ?_, ?_⟩
  · have h2 : (0 : ℝ) < r2 := lt_of_lt_of_le h1 h12
    apply hop
    apply Real.logb_le_logb_of_le (by norm_num : (1 : ℝ) < 2)
    · exact div_pos (by positivity) (by nlinarith)
    · apply div_le_div_of_nonneg_left (by positivity) (by nlinarith)
      nlinarith
  · have hC : (2 * Real.pi * 6378137) / ((2 * Real.pi * 6378137) / 256 * 256) = 1 := by
      field_simp
    rw [get_zoom, hC, Real.logb_one, hz]
  · nlinarith [Real.pi_gt_d6]
  · nlinarith [Real.pi_lt_d6]

/-- Witness for C9: the constant-zero rounding map is monotone and sends
0 to 0; resolutions 1 ≤ 2 give non-increasing zooms. -/
theorem C9_get_zoom_formula_monotone_witness :
    get_zoom 2 (fun _ => 0) ≤ get_zoom 1 (fun _ => 0) ∧
    get_zoom ((2 * Real.pi * 6378137) / 256) (fun _ => 0) = 0 ∧
    (156543 : ℝ) < (2 * Real.pi * 6378137) / 256 := by
  have h := C9_get_zoom_formula_monotone (fun _ => 0) monotone_const rfl 1 2 one_pos one_le_two
  exact ⟨h.2.1, h.2.2.1, h.2.2.2.1⟩

/-- C5 (code bug): on a channel-last image of shape (1, 3, 1) — one row,
three columns, one channel — with offsets (left, right, bottom, top) =
(0, 2, 0, 0), the source's `crop` keeps 2 columns because it unpacks
`width, height, _ = data.shape` with the axes swapped, while the spec's
slicing (rows `[top : height - bottom]`, cols `[left : width - right]`)
keeps exactly 1 column. -/
theorem C5_crop_image_branch_swaps_axes :
    (crop [[[1], [2], [3]]] ⟨0, 0, 1, 1⟩ WGS84_CRS "rgb" (0, 2, 0, 0)).1 = [[[1], [2]]] ∧
    cropImageSpec [[[1], [2], [3]]] (0, 2, 0, 0) = [[[1]]] ∧
    (crop [[[1], [2], [3]]] ⟨0, 0, 1, 1⟩ WGS84_CRS "rgb" (0, 2, 0, 0)).1 ≠
      cropImageSpec [[[1], [2], [3]]] (0, 2, 0, 0) := by
  decide

/-- C10 (code bug): `crop` with all four offsets zero is not the identity.
On a RAW array of shape (1, 2, 1) with bounds (0, 0, 1, 2), the pixel data
is returned unchanged but the "recomputed" bounds are (0, 1, 2, 2) — far
from the original (0, 0, 1, 2) — because the cropped `Window` is built
with `num_cols`/`num_rows` swapped; and on a channel-last image of shape
(2, 1, 1), zero-offset cropping truncates the data itself. -/
theorem C10_crop_zero_offsets_not_identity :
    (crop [[[5], [6]]] ⟨0, 0, 1, 2⟩ WGS84_CRS "raw" (0, 0, 0, 0)).1 = [[[5], [6]]] ∧
    (crop [[[5], [6]]] ⟨0, 0, 1, 2⟩ WGS84_CRS "raw" (0, 0, 0, 0)).2.1 = some ⟨0, 1, 2, 2⟩ ∧
    (⟨0, 1, 2, 2⟩ : Bnds) ≠ ⟨0, 0, 1, 2⟩ ∧
    (crop [[[1]], [[2]]] ⟨0, 0, 1, 2⟩ WGS84_CRS "rgb" (0, 0, 0, 0)).1 = [[[1]]] ∧
    (crop [[[1]], [[2]]] ⟨0, 0, 1, 2⟩ WGS84_CRS "rgb" (0, 0, 0, 0)).1 ≠ [[[1]], [[2]]] := by
  refine ⟨by decide, ?_, by norm_num [Bnds.mk.injEq], by decide, by decide⟩
  simp only [crop, shape3, sliceLast2of3, slice2of3, pySlice, pyIdx, from_bounds, windows_bounds]
  rw [if_neg (by decide : ¬ isimage "raw" = true)]
  norm_num [Bnds.mk.injEq]
  have hl : ((List.take (Int.toNat 2) [[(5 : ℚ)], [6]]).head?.getD []).length = 1 := by decide
  have h2 : Int.toNat 2 = 2 := rfl
  simp only [hl, h2]
  norm_num

/-- C4: `render` invokes the Crop Utility iff `effective_buffer` exceeds
the caller's own buffer, i.e. iff the transformation declared a positive
buffer; each per-side crop offset is either the declared buffer (`offset`)
or 0; with own buffer 4 and no transformation on an interior request the
output is never cropped and is oversized by 8 pixels per axis; with a
transformation declaring buffer 4 (own buffer 0), the transformation
margin is fully cropped and the output has exactly the requested shape. -/
theorem C4_crop_invocation :
    (∀ (buffer : ℤ) (tr : Option Xform),
      effectiveBuffer buffer tr > buffer ↔
        ∃ t, tr = some t ∧ ∃ tb, t.buffer = some tb ∧ 0 < tb) ∧
    (∀ (bounds : Bnds) (s0 s1 eb offset : ℤ) (extent : Bnds) (res : ℚ × ℚ),
      ((renderPlan bounds (s0, s1) eb offset extent res).left = offset ∨
        (renderPlan bounds (s0, s1) eb offset extent res).left = 0) ∧
      ((renderPlan bounds (s0, s1) eb offset extent res).right = offset ∨
        (renderPlan bounds (s0, s1) eb offset extent res).right = 0) ∧
      ((renderPlan bounds (s0, s1) eb offset extent res).bottom = offset ∨
        (renderPlan bounds (s0, s1) eb offset extent res).bottom = 0) ∧
      ((renderPlan bounds (s0, s1) eb offset extent res).top = offset ∨
        (renderPlan bounds (s0, s1) eb offset extent res).top = 0)) ∧
    (∀ (hav : (ℚ × ℚ) → (ℚ × ℚ) → ℚ) (bands : ℕ) (bounds : Bnds) (crs : CRS)
      (s0 s1 : ℤ) (target : CRS) (extent : Bnds),
      s0 ≠ 0 → s1 ≠ 0 →
      get_extent crs = Except.ok extent →
      ¬(bounds.left - 4 * (resolutionOf bounds s0 s1).1 < extent.left) →
      ¬(extent.right < bounds.right + 4 * (resolutionOf bounds s0 s1).1) →
      ¬(bounds.bottom - 4 * (resolutionOf bounds s0 s1).2 < extent.bottom) →
      ¬(extent.top < bounds.top + 4 * (resolutionOf bounds s0 s1).2) →
      render hav bands bounds crs (s0, s1) target none 4 =
        Except.ok (mkArr bands (s0 + 8).toNat (s1 + 8).toNat,
          (some ⟨bounds.left - 4 * (resolutionOf bounds s0 s1).1,
                 bounds.bottom - 4 * (resolutionOf bounds s0 s1).2,
                 bounds.right + 4 * (resolutionOf bounds s0 s1).1,
                 bounds.top + 4 * (resolutionOf bounds s0 s1).2⟩,
           some target), "raw")) ∧
    (∀ (hav : (ℚ × ℚ) → (ℚ × ℚ) → ℚ) (bands : ℕ) (bounds : Bnds) (crs : CRS)
      (s0 s1 : ℤ) (target : CRS) (extent : Bnds) (t : Xform),
      t.buffer = some 4 →
      (∀ x B R C, HasShape3 x.1 B R C → HasShape3 (t.fn x).1 B R C) →
      (∀ x, (t.fn x).2 = "raw") →
      0 < bands → 0 < s0 → 0 < s1 →
      get_extent crs = Except.ok extent →
      ¬(bounds.left - 4 * (resolutionOf bounds s0 s1).1 < extent.left) →
      ¬(extent.right < bounds.right + 4 * (resolutionOf bounds s0 s1).1) →
      ¬(bounds.bottom - 4 * (resolutionOf bounds s0 s1).2 < extent.bottom) →
      ¬(extent.top < bounds.top + 4 * (resolutionOf bounds s0 s1).2) →
      ∃ d p, render hav bands bounds crs (s0, s1) target (some t) 0 =
          Except.ok (d, p, "raw") ∧
        HasShape3 d bands s0.toNat s1.toNat) := by
  refine ⟨?_, ?_, ?_, ?_⟩
  · intro buffer tr
    cases tr with
    | none => simp [effectiveBuffer]
    | some t =>
      cases htb : t.buffer with
      | none => simp [effectiveBuffer, htb]
      | some tb => simp [effectiveBuffer, htb]
  · intro bounds s0 s1 eb offset extent res
    rw [renderPlan_eq]
    refine ⟨?_, ?_, ?_, ?_⟩ <;> split_ifs <;> simp
  · intro hav bands bounds crs s0 s1 target extent hs0 hs1 hext hL hRl hB hTl
    obtain ⟨v, hv⟩ := grm_ok hav bounds crs s0 s1 hs0 hs1
    simp only [render, get_resolution_ok bounds s0 s1 hs0 hs1, hv, hext, renderPlan_eq,
      effectiveBuffer, offsetOf, ok_bind]
    norm_num
    simp only [if_neg hL, if_neg hRl, if_neg hB, if_neg hTl]
    norm_num [composite]
    rfl
  · intro hav bands bounds crs s0 s1 target extent t ht hfn hfmt hbands hs0 hs1 hext hL hRl hB hTl
    obtain ⟨v, hv⟩ := grm_ok hav bounds crs s0 s1 (by omega) (by omega)
    simp only [render, get_resolution_ok bounds s0 s1 (by omega) (by omega), hv, hext,
      renderPlan_eq, effectiveBuffer, offsetOf, ht, ok_bind]
    norm_num
    simp only [if_neg hL, if_neg hRl, if_neg hB, if_neg hTl]
    norm_num [composite]
    rcases h1 : t.fn (mkArr bands (s0 + 8).toNat (s1 + 8).toNat,
        (⟨bounds.left - 4 * (resolutionOf bounds s0 s1).1,
          bounds.bottom - 4 * (resolutionOf bounds s0 s1).2,
          bounds.right + 4 * (resolutionOf bounds s0 s1).1,
          bounds.top + 4 * (resolutionOf bounds s0 s1).2⟩, target)) with ⟨d0, f0⟩
    have hf0 : f0 = "raw" := by
      have hx := hfmt (mkArr bands (s0 + 8).toNat (s1 + 8).toNat,
        (⟨bounds.left - 4 * (resolutionOf bounds s0 s1).1,
          bounds.bottom - 4 * (resolutionOf bounds s0 s1).2,
          bounds.right + 4 * (resolutionOf bounds s0 s1).1,
          bounds.top + 4 * (resolutionOf bounds s0 s1).2⟩, target))
      rw [h1] at hx
      exact hx
    subst hf0
    simp only [h1]
    refine ⟨_, ⟨_, _, rfl⟩, ?_⟩
    have hbb := hfn (mkArr bands (s0 + 8).toNat (s1 + 8).toNat,
        (⟨bounds.left - 4 * (resolutionOf bounds s0 s1).1,
          bounds.bottom - 4 * (resolutionOf bounds s0 s1).2,
          bounds.right + 4 * (resolutionOf bounds s0 s1).1,
          bounds.top + 4 * (resolutionOf bounds s0 s1).2⟩, target))
        bands (s0 + 8).toNat (s1 + 8).toNat (mkArr_hasShape _ _ _)
    rw [h1] at hbb
    have hc := crop_raw_shape d0
      ⟨bounds.left - 4 * (resolutionOf bounds s0 s1).1,
       bounds.bottom - 4 * (resolutionOf bounds s0 s1).2,
       bounds.right + 4 * (resolutionOf bounds s0 s1).1,
       bounds.top + 4 * (resolutionOf bounds s0 s1).2⟩
      target "raw" bands (s0 + 8).toNat (s1 + 8).toNat hbands (by omega) hbb
      4 4 4 4 (by norm_num) (by norm_num) (by norm_num) (by norm_num)
      (by omega) (by omega) (by decide)
    convert hc using 2 <;> omega



/-- Witness for C4: a shape-preserving RAW transformation with declared
buffer 4 yields positive effective buffer; concrete interior WGS84
requests instantiate the uncropped and fully-cropped scenarios. -/
theorem C4_crop_invocation_witness :
    effectiveBuffer 0 (some ⟨some 4, fun x => (x.1, "raw")⟩) > 0 ∧
    render (fun _ _ => 0) 1 ⟨0, 0, 10, 10⟩ WGS84_CRS (10, 10) WGS84_CRS none 4 =
      Except.ok (mkArr 1 18 18, (some ⟨-4, -4, 14, 14⟩, some WGS84_CRS), "raw") ∧
    (∃ d p, render (fun _ _ => 0) 1 ⟨0, 0, 10, 10⟩ WGS84_CRS (10, 10) WGS84_CRS
        (some ⟨some 4, fun x => (x.1, "raw")⟩) 0 = Except.ok (d, p, "raw") ∧
      HasShape3 d 1 10 10) := by
  refine ⟨(C4_crop_invocation.1 0 _).mpr ⟨_, rfl, 4, rfl, by norm_num⟩, ?_, ?_⟩
  · have h := C4_crop_invocation.2.2.1 (fun _ _ => 0) 1 ⟨0, 0, 10, 10⟩ WGS84_CRS 10 10 WGS84_CRS
      ⟨-180, -90, 180, 90⟩ (by norm_num) (by norm_num) rfl
      (by norm_num [resolutionOf, from_bounds])
      (by norm_num [resolutionOf, from_bounds])
      (by norm_num [resolutionOf, from_bounds])
      (by norm_num [resolutionOf, from_bounds])
    rw [h]
    norm_num [resolutionOf, from_bounds]
    rfl
  · obtain ⟨d, p, heq, hs⟩ := C4_crop_invocation.2.2.2 (fun _ _ => 0) 1 ⟨0, 0, 10, 10⟩ WGS84_CRS
      10 10 WGS84_CRS ⟨-180, -90, 180, 90⟩ ⟨some 4, fun x => (x.1, "raw")⟩ rfl
      (fun x B R C hx => hx) (fun x => rfl)
      (by norm_num) (by norm_num) (by norm_num) rfl
      (by norm_num [resolutionOf, from_bounds])
      (by norm_num [resolutionOf, from_bounds])
      (by norm_num [resolutionOf, from_bounds])
      (by norm_num [resolutionOf, from_bounds])
    exact ⟨d, p, heq, hs⟩

end Marblecutter
